import Mathlib

/-!
Verification development for the `email` library: a provider-agnostic
email-sending abstraction with two adapters (AWS SES and Gmail).  The Go
source is shallowly embedded below: pure Go functions become Lean
functions, the injected provider clients become explicit outcome
parameters, and byte slices become `List Nat` with values below 256.
-/

namespace EmailSpec

/-! ### Byte and string utilities -/

/-- UTF-8 encoding of a single Unicode code point, as the Go runtime
produces when converting a `string` to `[]byte`. -/
def utf8EncodeChar (n : Nat) : List Nat :=
  if n < 128 then [n]
  else if n < 2048 then [192 + n / 64, 128 + n % 64]
  else if n < 65536 then [224 + n / 4096, 128 + n / 64 % 64, 128 + n % 64]
  else [240 + n / 262144, 128 + n / 4096 % 64, 128 + n / 64 % 64, 128 + n % 64]

/-- UTF-8 byte sequence of a string, as Go's `[]byte(s)`. -/
def utf8Encode (s : String) : List Nat :=
  (s.data.map (fun c => utf8EncodeChar c.toNat)).flatten

/-- Does `s` begin with the character sequence `pat`? -/
def beginsWithSeq : List Char → List Char → Bool
  | [], _ => true
  | _ :: _, [] => false
  | p :: ps, c :: cs => p = c && beginsWithSeq ps cs

/-- Does `s` contain `pat` as a contiguous subsequence?  Embeds Go's
`strings.Contains` (all patterns used by the source are ASCII, where
Go's byte-level search and this character-level search coincide). -/
def containsSeq (pat : List Char) : List Char → Bool
  | [] => pat.isEmpty
  | c :: cs => beginsWithSeq pat (c :: cs) || containsSeq pat cs

/-- Go `strings.Contains s sub`. -/
def containsSubstr (s sub : String) : Bool :=
  containsSeq sub.data s.data

/-- Go `strings.HasPrefix s pfx`. -/
def hasPfx (s pfx : String) : Bool :=
  beginsWithSeq pfx.data s.data

/-- ASCII lower-casing of one character, as Go's `strings.ToLower` acts on
the ASCII range (every message text matched by the source is ASCII). -/
def charToLower (c : Char) : Char :=
  if 65 ≤ c.toNat ∧ c.toNat ≤ 90 then Char.ofNat (c.toNat + 32) else c

/-- Embeds Go `strings.ToLower` on the ASCII strings the adapters match. -/
def asciiToLower (s : String) : String :=
  String.mk (s.data.map charToLower)

/-- `strings.Contains (strings.ToLower s) pat`, the idiom used by the
Gmail error mapper. -/
def lowerContains (s pat : String) : Bool :=
  containsSubstr (asciiToLower s) pat

/-! ### Base64 (Go `encoding/base64`)

`b64Encode alpha` embeds `Encoding.EncodeToString` for an alphabet with
`=` padding; `b64Decode alpha` is the corresponding decoder.  The source
uses `base64.StdEncoding` for attachment bodies and `base64.URLEncoding`
for the transport encoding of the whole raw message. -/

def b64StdAlphabet : List Char :=
  "ABCDEFGHIJKLMNOPQRSTUVWXYZabcdefghijklmnopqrstuvwxyz0123456789+/".data

def b64UrlAlphabet : List Char :=
  "ABCDEFGHIJKLMNOPQRSTUVWXYZabcdefghijklmnopqrstuvwxyz0123456789-_".data

def b64Char (alpha : List Char) (n : Nat) : Char := alpha.getD n 'A'

def b64Encode (alpha : List Char) : List Nat → List Char
  | b1 :: b2 :: b3 :: rest =>
      b64Char alpha (b1 / 4) :: b64Char alpha ((b1 % 4) * 16 + b2 / 16) ::
      b64Char alpha ((b2 % 16) * 4 + b3 / 64) :: b64Char alpha (b3 % 64) ::
      b64Encode alpha rest
  | [b1, b2] => [b64Char alpha (b1 / 4), b64Char alpha ((b1 % 4) * 16 + b2 / 16),
      b64Char alpha ((b2 % 16) * 4), '=']
  | [b1] => [b64Char alpha (b1 / 4), b64Char alpha ((b1 % 4) * 16), '=', '=']
  | [] => []

def b64EncodeStr (alpha : List Char) (bs : List Nat) : String :=
  String.mk (b64Encode alpha bs)

def b64Val (alpha : List Char) (c : Char) : Option Nat :=
  alpha.findIdx? (fun x => x = c)

def b64Decode (alpha : List Char) : List Char → Option (List Nat)
  | c1 :: c2 :: c3 :: c4 :: rest =>
    if c4 = '=' then
      if rest = [] then
        if c3 = '=' then
          match b64Val alpha c1, b64Val alpha c2 with
          | some n1, some n2 =>
            if n2 % 16 = 0 then some [n1 * 4 + n2 / 16] else none
          | _, _ => none
        else
          match b64Val alpha c1, b64Val alpha c2, b64Val alpha c3 with
          | some n1, some n2, some n3 =>
            if n3 % 4 = 0 then some [n1 * 4 + n2 / 16, (n2 % 16) * 16 + n3 / 4]
            else none
          | _, _, _ => none
      else none
    else
      match b64Val alpha c1, b64Val alpha c2, b64Val alpha c3, b64Val alpha c4,
          b64Decode alpha rest with
      | some n1, some n2, some n3, some n4, some bs =>
        some ((n1 * 4 + n2 / 16) :: ((n2 % 16) * 16 + n3 / 4) ::
          ((n3 % 4) * 64 + n4) :: bs)
      | _, _, _, _, _ => none
  | [] => some []
  | _ => none

/-! ### Shared email core (`email.go`, `error.go`) -/

structure Attachment where
  FileName : String
  Content : List Nat
  Description : String
  ContentType : String
deriving DecidableEq

structure Email where
  FromAddress : String
  ToAddresses : List String
  CCAddresses : List String
  BCCAddresses : List String
  ReplyToAddresses : List String
  Subject : String
  HTMLBody : String
  TextBody : String
  Attachments : List Attachment
deriving DecidableEq

/-- A Go `error` value reaching the adapters: a smithy API error (AWS), a
`googleapi.Error` (Gmail), or any other error exposing only its text. -/
inductive GoErr where
  | awsAPI (code : String) (msg : String)
  | gmailAPI (code : Nat) (msg : String)
  | generic (msg : String)
deriving DecidableEq

/-- The `Error()` text of a `GoErr`, following the formats of
`smithy.GenericAPIError` and `googleapi.Error`. -/
def GoErr.errText : GoErr → String
  | .awsAPI code msg => "api error " ++ code ++ ": " ++ msg
  | .gmailAPI code msg => "googleapi: Error " ++ toString code ++ ": " ++ msg
  | .generic msg => msg

def REASON_UNKNOWN : String := "UNKNOWN_ERROR"
def REASON_RATE_LIMITED : String := "RATE_LIMITED"
def REASON_INVALID_EMAIL : String := "INVALID_EMAIL"
def REASON_UNVERIFIED_DOMAIN : String := "UNVERIFIED_DOMAIN"
def REASON_MESSAGE_REJECTED : String := "MESSAGE_REJECTED"
def REASON_SERVICE_ERROR : String := "SERVICE_ERROR"
def REASON_VALIDATION_ERROR : String := "VALIDATION_ERROR"

/-- `email.Error`: reason, message, optional wrapped cause. -/
structure EmailError where
  Message : String
  Reason : String
  Cause : Option GoErr
deriving DecidableEq

def newError (reason : String) (message : String) (cause : Option GoErr) :
    EmailError :=
  { Message := message, Reason := reason, Cause := cause }

def NewUnknownError (m : String) (c : Option GoErr) : EmailError :=
  newError REASON_UNKNOWN m c

def NewRateLimitedError (m : String) (c : Option GoErr) : EmailError :=
  newError REASON_RATE_LIMITED m c

def NewInvalidEmailError (m : String) (c : Option GoErr) : EmailError :=
  newError REASON_INVALID_EMAIL m c

def NewUnverifiedDomainError (m : String) (c : Option GoErr) : EmailError :=
  newError REASON_UNVERIFIED_DOMAIN m c

def NewMessageRejectedError (m : String) (c : Option GoErr) : EmailError :=
  newError REASON_MESSAGE_REJECTED m c

def NewServiceError (m : String) (c : Option GoErr) : EmailError :=
  newError REASON_SERVICE_ERROR m c

def NewValidationError (m : String) (c : Option GoErr) : EmailError :=
  newError REASON_VALIDATION_ERROR m c

/-- The closed error taxonomy of the spec (values as the Go constants). -/
def taxonomyReasons : List String :=
  [REASON_UNKNOWN, REASON_RATE_LIMITED, REASON_INVALID_EMAIL,
   REASON_UNVERIFIED_DOMAIN, REASON_MESSAGE_REJECTED, REASON_SERVICE_ERROR,
   REASON_VALIDATION_ERROR]

/-! ### AWS SES adapter (`awsses/ses.go`)

The injected `SESClient` is modelled by its outcome on the one call the
adapter makes: `none` for success, `some err` for the provider-native
error it returns.  `SendEmail` additionally reports how many times the
client was invoked. -/

namespace AWSSES

def isValidEmailAddress (email : String) : Bool :=
  containsSubstr email "@" && containsSubstr email "."

/-- The `for _, addr := range allAddresses` loop of `validateEmail`:
returns the error for the first invalid recipient address. -/
def checkRecipients : List String → Option EmailError
  | [] => none
  | addr :: rest =>
    if !isValidEmailAddress addr then
      some (NewInvalidEmailError ("invalid recipient address: " ++ addr) none)
    else checkRecipients rest

def validateEmail (e : Email) : Option EmailError :=
  if e.FromAddress = "" then
    some (NewValidationError "from address is required" none)
  else if !isValidEmailAddress e.FromAddress then
    some (NewInvalidEmailError "invalid from address format" none)
  else if e.ToAddresses.length + e.CCAddresses.length + e.BCCAddresses.length = 0 then
    some (NewValidationError "at least one recipient is required" none)
  else
    match checkRecipients (e.ToAddresses ++ e.CCAddresses ++ e.BCCAddresses) with
    | some err => some err
    | none =>
      if e.Subject = "" then
        some (NewValidationError "subject is required" none)
      else if e.HTMLBody = "" ∧ e.TextBody = "" then
        some (NewValidationError "email body is required (HTML or text)" none)
      else none

def categorizeAWSError (err : GoErr) : EmailError :=
  match err with
  | .awsAPI code _ =>
    if code = "TooManyRequestsException" then
      NewRateLimitedError "sending rate limit exceeded" (some err)
    else if code = "MessageRejected" then
      NewMessageRejectedError "message rejected by SES" (some err)
    else if code = "MailFromDomainNotVerifiedException" then
      NewUnverifiedDomainError "sender domain not verified" (some err)
    else if code = "InvalidParameterValueException" then
      NewInvalidEmailError "invalid email parameter" (some err)
    else if code = "ServiceUnavailableException" ∨ code = "InternalServiceErrorException" then
      NewServiceError "AWS SES service error" (some err)
    else NewUnknownError "failed to send email" (some err)
  | _ => NewUnknownError "failed to send email" (some err)

/-- `AWSSESSender.SendEmail` with the injected client's outcome as
`clientResult`; the second component counts client invocations. -/
def SendEmail (e : Email) (clientResult : Option GoErr) :
    Option EmailError × Nat :=
  match validateEmail e with
  | some err => (some err, 0)
  | none =>
    match clientResult with
    | some err => (some (categorizeAWSError err), 1)
    | none => (none, 1)

end AWSSES

/-! ### Gmail adapter (`gmail/gmail.go`) -/

namespace Gmail

structure Message where
  Raw : String
deriving DecidableEq

/-- Go `mime.WordEncoder.Encode`'s `needsEncoding` test. -/
def needsQEncoding (s : String) : Bool :=
  s.data.any (fun c => (c.toNat < 32 ∨ c.toNat > 126) ∧ c.toNat ≠ 9)

def upperHexDigit (n : Nat) : Char := "0123456789ABCDEF".data.getD n '0'

/-- Q-encoding of one byte, as `mime.QEncoding` writes it. -/
def qEscapeByte (b : Nat) : List Char :=
  if b = 32 then ['_']
  else if 33 ≤ b ∧ b ≤ 126 ∧ b ≠ 61 ∧ b ≠ 63 ∧ b ≠ 95 then [Char.ofNat b]
  else ['=', upperHexDigit (b / 16), upperHexDigit (b % 16)]

/-- Embeds Go `mime.QEncoding.Encode`.  Faithful for subjects that need
no encoding (returned verbatim, as in the stdlib); subjects that do need
encoding become one Q encoded-word — the stdlib's splitting of encoded
words beyond 75 bytes is not modelled (no claim concerns such subjects). -/
def qEncode (charset s : String) : String :=
  if needsQEncoding s then
    "=?" ++ charset ++ "?q?" ++
      String.mk (((utf8Encode s).map qEscapeByte).flatten) ++ "?="
  else s

def joinComma (l : List String) : String := String.intercalate ", " l

/-- The fixed boundary of the `multipart/alternative` body. -/
def altBoundary : String := "boundary123456789"

/-- The pre-Content-Type headers assembled by `createMessage`: From, To,
Subject (Q-encoded), MIME-Version, then Cc, Bcc and Reply-To each only
when its list is non-empty. -/
def baseHeaders (e : Email) : List String :=
  let headers := ["From: " ++ e.FromAddress,
                  "To: " ++ joinComma e.ToAddresses,
                  "Subject: " ++ qEncode "utf-8" e.Subject,
                  "MIME-Version: 1.0"]
  let headers := if e.CCAddresses.length > 0 then
      headers ++ ["Cc: " ++ joinComma e.CCAddresses] else headers
  let headers := if e.BCCAddresses.length > 0 then
      headers ++ ["Bcc: " ++ joinComma e.BCCAddresses] else headers
  if e.ReplyToAddresses.length > 0 then
      headers ++ ["Reply-To: " ++ joinComma e.ReplyToAddresses] else headers

/-- The Content-Type (and transfer-encoding) headers appended by the
body-shape branch of `createMessage`. -/
def ctHeaders (e : Email) : List String :=
  if e.HTMLBody ≠ "" ∧ e.TextBody ≠ "" then
    ["Content-Type: multipart/alternative; boundary=" ++ altBoundary]
  else if e.HTMLBody ≠ "" then
    ["Content-Type: text/html; charset=utf-8",
     "Content-Transfer-Encoding: 8bit"]
  else
    ["Content-Type: text/plain; charset=utf-8",
     "Content-Transfer-Encoding: 8bit"]

/-- The body selected by the body-shape branch of `createMessage`:
multipart/alternative when both bodies are present, else the single
body.  The Go source builds the multipart scaffolding from a backquote
literal whose line breaks are bare LF characters. -/
def bodyOf (e : Email) : String :=
  if e.HTMLBody ≠ "" ∧ e.TextBody ≠ "" then
    "\n--" ++ altBoundary
      ++ "\nContent-Type: text/plain; charset=utf-8\nContent-Transfer-Encoding: 8bit\n\n"
      ++ e.TextBody
      ++ "\n\n--" ++ altBoundary
      ++ "\nContent-Type: text/html; charset=utf-8\nContent-Transfer-Encoding: 8bit\n\n"
      ++ e.HTMLBody ++ "\n\n--" ++ altBoundary ++ "--"
  else if e.HTMLBody ≠ "" then e.HTMLBody
  else e.TextBody

/-- The header-list and body computed by `createMessage` before the
attachment check (lines 81–127 of the adapter). -/
def headersAndBody (e : Email) : List String × String :=
  (baseHeaders e ++ ctHeaders e, bodyOf e)

/-- The fixed boundary of the `multipart/mixed` envelope. -/
def mixedBoundary : String := "mixed_boundary_123456789"

def mixedCTHeader : String :=
  "Content-Type: multipart/mixed; boundary=" ++ mixedBoundary

/-- The `for i, header := range headers` loop of
`createMessageWithAttachments`: overwrite the first Content-Type header. -/
def replaceFirstContentType (newCT : String) : List String → List String
  | [] => []
  | h :: rest =>
    if hasPfx h "Content-Type:" then newCT :: rest
    else h :: replaceFirstContentType newCT rest

def containsContentType (headers : List String) : Bool :=
  headers.any (fun h => hasPfx h "Content-Type:")

/-- The first (body) part of the mixed envelope, wrapping the
previously-selected body. -/
def mixedBodyPart (body : String) : String :=
  "--" ++ mixedBoundary ++
  "\nContent-Type: text/plain; charset=utf-8\nContent-Transfer-Encoding: 8bit\n\n"
  ++ body

/-- One attachment part of the mixed envelope. -/
def attachmentPart (a : Attachment) : String :=
  "--" ++ mixedBoundary ++ "\nContent-Type: " ++ a.ContentType ++ "; name=\""
  ++ a.FileName ++ "\"\nContent-Disposition: attachment; filename=\""
  ++ a.FileName ++ "\"\nContent-Transfer-Encoding: base64\n\n"
  ++ b64EncodeStr b64StdAlphabet a.Content

/-- The header mutation of `createMessageWithAttachments`: overwrite the
first Content-Type header with the multipart/mixed one, appending it
instead if no Content-Type header is present. -/
def mixedHeaders (headers : List String) : List String :=
  if !containsContentType (replaceFirstContentType mixedCTHeader headers) then
    replaceFirstContentType mixedCTHeader headers ++ [mixedCTHeader]
  else replaceFirstContentType mixedCTHeader headers

/-- Raw message built by `createMessageWithAttachments` (before the
base64url transport encoding). -/
def rawWithAttachments (headers : List String) (body : String)
    (attachments : List Attachment) : String :=
  String.intercalate "\r\n" (mixedHeaders headers) ++ "\r\n\r\n" ++
    String.intercalate "\r\n"
      ([mixedBodyPart body] ++ attachments.map attachmentPart ++
       ["--" ++ mixedBoundary ++ "--"])

def createMessageWithAttachments (headers : List String) (body : String)
    (attachments : List Attachment) : Message × Option GoErr :=
  ({ Raw := b64EncodeStr b64UrlAlphabet
      (utf8Encode (rawWithAttachments headers body attachments)) }, none)

/-- Raw message built by `createMessage` when there are no attachments. -/
def rawNoAttachments (headers : List String) (body : String) : String :=
  String.intercalate "\r\n" headers ++ "\r\n\r\n" ++ body

/-- `GmailSender.createMessage`. -/
def createMessage (e : Email) : Message × Option GoErr :=
  let hb := headersAndBody e
  if e.Attachments.length > 0 then
    createMessageWithAttachments hb.1 hb.2 e.Attachments
  else
    ({ Raw := b64EncodeStr b64UrlAlphabet
        (utf8Encode (rawNoAttachments hb.1 hb.2)) }, none)

/-- The raw message of `createMessage` before the base64url transport
encoding. -/
def rawMessage (e : Email) : String :=
  let hb := headersAndBody e
  if e.Attachments.length > 0 then rawWithAttachments hb.1 hb.2 e.Attachments
  else rawNoAttachments hb.1 hb.2

/-- The `net/mail.ParseAddress` outcome, supplied as an oracle: `none`
means the address parses under the stdlib RFC 5322 grammar, `some err`
is the parse error.  The validator only branches on this outcome. -/
abbrev ParseOracle := String → Option GoErr

/-- The recipient loop of `GmailSender.validateEmail`. -/
def checkRecipients (parse : ParseOracle) : List String → Option EmailError
  | [] => none
  | addr :: rest =>
    match parse addr with
    | some err =>
      some (NewInvalidEmailError ("Invalid recipient address format: " ++ addr)
        (some err))
    | none => checkRecipients parse rest

def validateEmail (parse : ParseOracle) (e : Email) : Option EmailError :=
  if e.FromAddress = "" then
    some (NewValidationError "From address is required" none)
  else
    match parse e.FromAddress with
    | some err => some (NewInvalidEmailError "Invalid from address format" (some err))
    | none =>
      if e.ToAddresses.length = 0 ∧ e.CCAddresses.length = 0 ∧ e.BCCAddresses.length = 0 then
        some (NewValidationError "At least one recipient is required" none)
      else
        match checkRecipients parse (e.ToAddresses ++ e.CCAddresses ++ e.BCCAddresses) with
        | some err => some err
        | none =>
          if e.Subject = "" then
            some (NewValidationError "Subject is required" none)
          else if e.HTMLBody = "" ∧ e.TextBody = "" then
            some (NewValidationError "Email body is required" none)
          else none

def mapGmailError (err : GoErr) : EmailError :=
  match err with
  | .gmailAPI code msg =>
    if code = 400 then
      if lowerContains msg "invalid" ∧
          (lowerContains msg "recipient" ∨ lowerContains msg "email" ∨
           lowerContains msg "address") then
        NewInvalidEmailError "Invalid email address" (some err)
      else if lowerContains msg "malformed" ∨ lowerContains msg "encoding" then
        NewValidationError "Invalid message format" (some err)
      else if lowerContains msg "too large" ∨ lowerContains msg "size" then
        NewValidationError "Message too large" (some err)
      else NewValidationError "Invalid request parameters" (some err)
    else if code = 401 then
      NewValidationError "Authentication failed - check service account credentials"
        (some err)
    else if code = 403 then
      if lowerContains msg "scope" ∨ lowerContains msg "permission" then
        NewUnverifiedDomainError "Insufficient permissions to send email" (some err)
      else if lowerContains msg "domain" then
        NewUnverifiedDomainError "Domain policy prevents sending" (some err)
      else if lowerContains msg "blocked" then
        NewMessageRejectedError "Sender blocked by recipient" (some err)
      else NewUnverifiedDomainError "Permission denied" (some err)
    else if code = 429 then
      if lowerContains msg "quota" then
        NewRateLimitedError "Gmail API quota exceeded" (some err)
      else if lowerContains msg "rate" then
        NewRateLimitedError "Gmail API rate limit exceeded" (some err)
      else NewRateLimitedError "Too many requests" (some err)
    else if code = 500 then
      NewServiceError "Internal Gmail server error" (some err)
    else if code = 503 then
      NewServiceError "Gmail service temporarily unavailable" (some err)
    else if code = 504 then
      NewServiceError "Gmail API request timeout" (some err)
    else
      NewServiceError ("Gmail API error (HTTP " ++ toString code ++ ")") (some err)
  | _ =>
    if lowerContains err.errText "context" ∧ lowerContains err.errText "deadline" then
      NewServiceError "Request timeout" (some err)
    else if lowerContains err.errText "connection" ∨ lowerContains err.errText "network" then
      NewServiceError "Network error" (some err)
    else NewUnknownError "Gmail API error" (some err)

/-- `GmailSender.SendEmail` with the address parser and the provider
RPC's outcome injected; the second component counts RPC invocations. -/
def SendEmail (parse : ParseOracle) (e : Email) (clientResult : Option GoErr) :
    Option EmailError × Nat :=
  match validateEmail parse e with
  | some err => (some err, 0)
  | none =>
    match (createMessage e).2 with
    | some err => (some (NewValidationError "Failed to create message" (some err)), 0)
    | none =>
      match clientResult with
      | some err => (some (mapGmailError err), 1)
      | none => (none, 1)

end Gmail

/-! ### Base64 round-trip lemmas -/

lemma b64Val_b64Char_std :
    ∀ n, n < 64 → b64Val b64StdAlphabet (b64Char b64StdAlphabet n) = some n := by
  decide

lemma b64Val_b64Char_url :
    ∀ n, n < 64 → b64Val b64UrlAlphabet (b64Char b64UrlAlphabet n) = some n := by
  decide

lemma b64Char_ne_pad_std :
    ∀ n, n < 64 → b64Char b64StdAlphabet n ≠ '=' := by decide

lemma b64Char_ne_pad_url :
    ∀ n, n < 64 → b64Char b64UrlAlphabet n ≠ '=' := by decide

theorem b64_decode_encode (alpha : List Char)
    (hval : ∀ n, n < 64 → b64Val alpha (b64Char alpha n) = some n)
    (hne : ∀ n, n < 64 → b64Char alpha n ≠ '=') :
    ∀ bs : List Nat, (∀ b ∈ bs, b < 256) →
      b64Decode alpha (b64Encode alpha bs) = some bs
  | [], _ => rfl
  | [b1], h => by
    have hb1 : b1 < 256 := h b1 (by simp)
    have h1 : b1 / 4 < 64 := by omega
    have h2 : (b1 % 4) * 16 < 64 := by omega
    have e1 : (b1 % 4) * 16 % 16 = 0 := by omega
    have e2 : b1 / 4 * 4 + (b1 % 4) * 16 / 16 = b1 := by omega
    simp [b64Encode, b64Decode, hval _ h1, hval _ h2, e1, e2] <;> omega
  | [b1, b2], h => by
    have hb1 : b1 < 256 := h b1 (by simp)
    have hb2 : b2 < 256 := h b2 (by simp)
    have h1 : b1 / 4 < 64 := by omega
    have h2 : (b1 % 4) * 16 + b2 / 16 < 64 := by omega
    have h3 : (b2 % 16) * 4 < 64 := by omega
    have hne3 := hne _ h3
    have e1 : (b2 % 16) * 4 % 4 = 0 := by omega
    have e2 : b1 / 4 * 4 + ((b1 % 4) * 16 + b2 / 16) / 16 = b1 := by omega
    have e3 : ((b1 % 4) * 16 + b2 / 16) % 16 * 16 + (b2 % 16) * 4 / 4 = b2 := by
      omega
    simp [b64Encode, b64Decode, hval _ h1, hval _ h2, hval _ h3, hne3, e1,
      e2, e3] <;> omega
  | b1 :: b2 :: b3 :: rest, h => by
    have hb1 : b1 < 256 := h b1 (by simp)
    have hb2 : b2 < 256 := h b2 (by simp)
    have hb3 : b3 < 256 := h b3 (by simp)
    have ih := b64_decode_encode alpha hval hne rest
      (fun b hb => h b (by simp [hb]))
    have h1 : b1 / 4 < 64 := by omega
    have h2 : (b1 % 4) * 16 + b2 / 16 < 64 := by omega
    have h3 : (b2 % 16) * 4 + b3 / 64 < 64 := by omega
    have h4 : b3 % 64 < 64 := by omega
    have hne4 := hne _ h4
    have e2 : b1 / 4 * 4 + ((b1 % 4) * 16 + b2 / 16) / 16 = b1 := by omega
    have e3 : ((b1 % 4) * 16 + b2 / 16) % 16 * 16 +
        ((b2 % 16) * 4 + b3 / 64) / 4 = b2 := by omega
    have e4 : ((b2 % 16) * 4 + b3 / 64) % 4 * 64 + b3 % 64 = b3 := by omega
    simp [b64Encode, b64Decode, hval _ h1, hval _ h2, hval _ h3, hval _ h4,
      hne4, ih, e2, e3, e4]

/-- Every byte produced by the UTF-8 encoder is below 256. -/
lemma utf8EncodeChar_lt (n : Nat) (hn : n < 1114112) :
    ∀ b ∈ utf8EncodeChar n, b < 256 := by
  intro b hb
  unfold utf8EncodeChar at hb
  split_ifs at hb <;> simp at hb <;> omega

lemma char_toNat_lt (c : Char) : c.toNat < 1114112 := by
  have h := c.valid
  rcases h with h | ⟨_, h2⟩
  · have : c.val.toNat < 55296 := h
    simpa [Char.toNat] using this.trans (by norm_num)
  · simpa [Char.toNat] using h2

lemma utf8Encode_lt (s : String) : ∀ b ∈ utf8Encode s, b < 256 := by
  intro b hb
  simp only [utf8Encode, List.mem_flatten, List.mem_map] at hb
  obtain ⟨l, ⟨c, _, rfl⟩, hbl⟩ := hb
  exact utf8EncodeChar_lt c.toNat (char_toNat_lt c) b hbl

/-- Base64url transport decoding recovers the UTF-8 bytes of any string
the Gmail builder encodes. -/
lemma b64url_roundtrip_string (s : String) :
    b64Decode b64UrlAlphabet (b64EncodeStr b64UrlAlphabet (utf8Encode s)).data =
      some (utf8Encode s) := by
  have : (b64EncodeStr b64UrlAlphabet (utf8Encode s)).data =
      b64Encode b64UrlAlphabet (utf8Encode s) := rfl
  rw [this]
  exact b64_decode_encode _ b64Val_b64Char_url b64Char_ne_pad_url _ (utf8Encode_lt s)

/-! ### Helper lemmas -/

lemma containsSeq_singleton (c : Char) (l : List Char) :
    containsSeq [c] l = l.contains c := by
  induction l with
  | nil => rfl
  | cons a as ih =>
    simp only [containsSeq, beginsWithSeq, List.contains_cons, ih]
    by_cases h : c = a
    · subst h; simp
    · simp [h, Ne.symm h, beq_iff_eq]

lemma createMessage_snd_eq_none (e : Email) :
    (Gmail.createMessage e).2 = none := by
  unfold Gmail.createMessage
  by_cases h : e.Attachments.length > 0 <;>
    simp [h, Gmail.createMessageWithAttachments]

/-- A concrete well-formed email used by witnesses. -/
def sampleEmail : Email :=
  { FromAddress := "a@b.c", ToAddresses := ["d@e.f"], CCAddresses := [],
    BCCAddresses := [], ReplyToAddresses := [], Subject := "Hi",
    HTMLBody := "<b>H</b>", TextBody := "T", Attachments := [] }

/-! ### Claims -/

/-- Claim-side reason table for the cloud mapper, as the spec lists it:
each listed native code maps to its taxonomy value; any other code and
any non-API error map to UNKNOWN. -/
def specAWSReason (err : GoErr) : String :=
  match err with
  | .awsAPI code _ =>
    if code = "TooManyRequestsException" then REASON_RATE_LIMITED
    else if code = "MessageRejected" then REASON_MESSAGE_REJECTED
    else if code = "MailFromDomainNotVerifiedException" then REASON_UNVERIFIED_DOMAIN
    else if code = "InvalidParameterValueException" then REASON_INVALID_EMAIL
    else if code = "ServiceUnavailableException" then REASON_SERVICE_ERROR
    else if code = "InternalServiceErrorException" then REASON_SERVICE_ERROR
    else REASON_UNKNOWN
  | _ => REASON_UNKNOWN

/-- C2: `categorizeAWSError` maps each listed API error code to its
taxonomy reason (TooManyRequestsException to RATE_LIMITED, MessageRejected
to MESSAGE_REJECTED, MailFromDomainNotVerifiedException to
UNVERIFIED_DOMAIN, InvalidParameterValueException to INVALID_EMAIL,
ServiceUnavailableException and InternalServiceErrorException to
SERVICE_ERROR), any other code or non-API error to UNKNOWN, and always
preserves the original error as the wrapped cause. -/
theorem categorizeAWSError_matches_table (err : GoErr) :
    (AWSSES.categorizeAWSError err).Reason = specAWSReason err ∧
    (AWSSES.categorizeAWSError err).Cause = some err := by
  rcases err with ⟨code, msg⟩ | ⟨code, msg⟩ | msg
  · constructor <;>
    · simp only [AWSSES.categorizeAWSError, specAWSReason]
      split_ifs <;>
        simp_all [NewRateLimitedError, NewMessageRejectedError,
          NewUnverifiedDomainError, NewInvalidEmailError, NewServiceError,
          NewUnknownError, newError]
  · exact ⟨rfl, rfl⟩
  · exact ⟨rfl, rfl⟩

/-- C7 counterexample: a Gmail API error with status 403 whose message
contains "blocked" (case-insensitively) but also contains "domain" maps
to UNVERIFIED_DOMAIN, not MESSAGE_REJECTED as the claim states. -/
theorem gmail_403_blocked_cex :
    lowerContains "domain blocked" "blocked" = true ∧
    (Gmail.mapGmailError (.gmailAPI 403 "domain blocked")).Reason =
      REASON_UNVERIFIED_DOMAIN ∧
    (Gmail.mapGmailError (.gmailAPI 403 "domain blocked")).Reason ≠
      REASON_MESSAGE_REJECTED := by
  refine ⟨by decide, by decide, by decide⟩

/-- C7 (amended): a Gmail API error with status 403 whose message
contains "blocked" (case-insensitively) and none of "scope",
"permission" or "domain" maps to MESSAGE_REJECTED. -/
theorem gmail_403_blocked_amended (msg : String)
    (hb : lowerContains msg "blocked" = true)
    (hs : lowerContains msg "scope" = false)
    (hp : lowerContains msg "permission" = false)
    (hd : lowerContains msg "domain" = false) :
    Gmail.mapGmailError (.gmailAPI 403 msg) =
      NewMessageRejectedError "Sender blocked by recipient"
        (some (.gmailAPI 403 msg)) := by
  simp [Gmail.mapGmailError, hb, hs, hp, hd]

/-- Witness for the amended C7 at the concrete message "blocked". -/
theorem gmail_403_blocked_amended_witness :
    (lowerContains "blocked" "blocked" = true ∧
      lowerContains "blocked" "scope" = false ∧
      lowerContains "blocked" "permission" = false ∧
      lowerContains "blocked" "domain" = false) ∧
    Gmail.mapGmailError (.gmailAPI 403 "blocked") =
      NewMessageRejectedError "Sender blocked by recipient"
        (some (.gmailAPI 403 "blocked")) :=
  ⟨⟨by decide, by decide, by decide, by decide⟩,
   gmail_403_blocked_amended "blocked" (by decide) (by decide) (by decide)
     (by decide)⟩

/-- C8 counterexample: the SES heuristic address check rejects "a@b" (it
has no "."), contradicting the claim that it returns true there. -/
theorem heuristic_a_at_b_cex :
    AWSSES.isValidEmailAddress "a@b" = false := by decide

/-- C8 (amended): the SES heuristic accepts exactly the strings that
contain both "@" and "."; hence it rejects "a@b" (no dot) and accepts
"a@b.c", while the strict RFC 5322 parser of the other adapter may
differ on such edge cases. -/
theorem isValidEmailAddress_heuristic :
    (∀ s : String, AWSSES.isValidEmailAddress s =
      (s.data.contains '@' && s.data.contains '.')) ∧
    AWSSES.isValidEmailAddress "a@b" = false ∧
    AWSSES.isValidEmailAddress "a@b.c" = true := by
  refine ⟨fun s => ?_, by decide, by decide⟩
  simp only [AWSSES.isValidEmailAddress, containsSubstr]
  rw [containsSeq_singleton, containsSeq_singleton]

/-- C9: building the Gmail MIME message from equal `Email` values yields
byte-identical Raw output; the boundary tokens are fixed literals with
no embedded timestamps or randomness. -/
theorem createMessage_deterministic (e e' : Email) (h : e = e') :
    (Gmail.createMessage e).1.Raw = (Gmail.createMessage e').1.Raw ∧
    Gmail.altBoundary = "boundary123456789" ∧
    Gmail.mixedBoundary = "mixed_boundary_123456789" :=
  ⟨by rw [h], rfl, rfl⟩

/-- Witness for C9 at a concrete email. -/
theorem createMessage_deterministic_witness :
    sampleEmail = sampleEmail ∧
    (Gmail.createMessage sampleEmail).1.Raw =
      (Gmail.createMessage sampleEmail).1.Raw :=
  ⟨rfl, (createMessage_deterministic sampleEmail sampleEmail rfl).1⟩

/-- C10: `createMessage` returns no error for any input, so the
"Failed to create message" branch of `GmailSender.SendEmail` is
unreachable: `SendEmail` behaves exactly as if that branch were absent. -/
theorem createMessage_never_fails (e : Email) :
    (Gmail.createMessage e).2 = none ∧
    ∀ (parse : Gmail.ParseOracle) (res : Option GoErr),
      Gmail.SendEmail parse e res =
        (match Gmail.validateEmail parse e with
         | some err => (some err, 0)
         | none =>
           match res with
           | some err => (some (Gmail.mapGmailError err), 1)
           | none => (none, 1)) := by
  refine ⟨createMessage_snd_eq_none e, fun parse res => ?_⟩
  unfold Gmail.SendEmail
  rw [createMessage_snd_eq_none e]

lemma sesCheckRecipients_reason : ∀ (l : List String) (err : EmailError),
    AWSSES.checkRecipients l = some err → err.Reason = REASON_INVALID_EMAIL
  | [], err, h => by simp [AWSSES.checkRecipients] at h
  | addr :: rest, err, h => by
    by_cases ha : AWSSES.isValidEmailAddress addr
    · exact sesCheckRecipients_reason rest err
        (by simpa [AWSSES.checkRecipients, ha] using h)
    · simp [AWSSES.checkRecipients, ha] at h
      simp [← h, NewInvalidEmailError, newError]

lemma gmailCheckRecipients_reason (parse : Gmail.ParseOracle) :
    ∀ (l : List String) (err : EmailError),
    Gmail.checkRecipients parse l = some err → err.Reason = REASON_INVALID_EMAIL
  | [], err, h => by simp [Gmail.checkRecipients] at h
  | addr :: rest, err, h => by
    cases ha : parse addr with
    | some perr =>
      rw [Gmail.checkRecipients, ha] at h
      cases h
      simp [NewInvalidEmailError, newError]
    | none =>
      exact gmailCheckRecipients_reason parse rest err
        (by rw [Gmail.checkRecipients, ha] at h; exact h)

lemma mem_validation : REASON_VALIDATION_ERROR ∈ taxonomyReasons := by decide

lemma mem_invalid : REASON_INVALID_EMAIL ∈ taxonomyReasons := by decide

lemma sesValidate_reason (e : Email) (err : EmailError)
    (h : AWSSES.validateEmail e = some err) : err.Reason ∈ taxonomyReasons := by
  unfold AWSSES.validateEmail at h
  by_cases h1 : e.FromAddress = ""
  · rw [if_pos h1] at h; cases h; exact mem_validation
  · rw [if_neg h1] at h
    by_cases h2 : (!AWSSES.isValidEmailAddress e.FromAddress) = true
    · rw [if_pos h2] at h; cases h; exact mem_invalid
    · rw [if_neg h2] at h
      by_cases h3 : e.ToAddresses.length + e.CCAddresses.length +
          e.BCCAddresses.length = 0
      · rw [if_pos h3] at h; cases h; exact mem_validation
      · rw [if_neg h3] at h
        cases hr : AWSSES.checkRecipients
            (e.ToAddresses ++ e.CCAddresses ++ e.BCCAddresses) with
        | some rerr =>
          rw [hr] at h; cases h
          have hre := sesCheckRecipients_reason _ _ hr
          rw [hre]; exact mem_invalid
        | none =>
          rw [hr] at h
          by_cases h4 : e.Subject = ""
          · rw [if_pos h4] at h; cases h; exact mem_validation
          · rw [if_neg h4] at h
            by_cases h5 : e.HTMLBody = "" ∧ e.TextBody = ""
            · rw [if_pos h5] at h; cases h; exact mem_validation
            · rw [if_neg h5] at h; cases h

lemma gmailValidate_reason (parse : Gmail.ParseOracle) (e : Email)
    (err : EmailError) (h : Gmail.validateEmail parse e = some err) :
    err.Reason ∈ taxonomyReasons := by
  unfold Gmail.validateEmail at h
  by_cases h1 : e.FromAddress = ""
  · rw [if_pos h1] at h; cases h; exact mem_validation
  · rw [if_neg h1] at h
    cases hp : parse e.FromAddress with
    | some perr => rw [hp] at h; cases h; exact mem_invalid
    | none =>
      rw [hp] at h
      by_cases h2 : e.ToAddresses.length = 0 ∧ e.CCAddresses.length = 0 ∧
          e.BCCAddresses.length = 0
      · rw [if_pos h2] at h; cases h; exact mem_validation
      · rw [if_neg h2] at h
        cases hr : Gmail.checkRecipients parse
            (e.ToAddresses ++ e.CCAddresses ++ e.BCCAddresses) with
        | some rerr =>
          rw [hr] at h; cases h
          have hre := gmailCheckRecipients_reason parse _ _ hr
          rw [hre]; exact mem_invalid
        | none =>
          rw [hr] at h
          by_cases h4 : e.Subject = ""
          · rw [if_pos h4] at h; cases h; exact mem_validation
          · rw [if_neg h4] at h
            by_cases h5 : e.HTMLBody = "" ∧ e.TextBody = ""
            · rw [if_pos h5] at h; cases h; exact mem_validation
            · rw [if_neg h5] at h; cases h

lemma categorize_reason_mem (err : GoErr) :
    (AWSSES.categorizeAWSError err).Reason ∈ taxonomyReasons := by
  rcases err with ⟨code, msg⟩ | ⟨code, msg⟩ | msg <;>
    simp only [AWSSES.categorizeAWSError] <;>
    try split_ifs
  all_goals
    simp only [NewUnknownError, NewRateLimitedError, NewInvalidEmailError,
      NewUnverifiedDomainError, NewMessageRejectedError, NewServiceError,
      NewValidationError, newError]
  all_goals decide

lemma mapGmail_reason_mem (err : GoErr) :
    (Gmail.mapGmailError err).Reason ∈ taxonomyReasons := by
  rcases err with ⟨code, msg⟩ | ⟨code, msg⟩ | msg <;>
    simp only [Gmail.mapGmailError, GoErr.errText] <;>
    split_ifs
  all_goals
    simp only [NewUnknownError, NewRateLimitedError, NewInvalidEmailError,
      NewUnverifiedDomainError, NewMessageRejectedError, NewServiceError,
      NewValidationError, newError]
  all_goals decide

/-- C5: whenever an adapter's validator rejects an email, its `SendEmail`
returns exactly that validation failure and the injected provider client
records zero invocations. -/
theorem validation_failure_skips_rpc (e : Email) (parse : Gmail.ParseOracle)
    (res : Option GoErr) :
    ((AWSSES.validateEmail e).isSome = true →
      AWSSES.SendEmail e res = (AWSSES.validateEmail e, 0)) ∧
    ((Gmail.validateEmail parse e).isSome = true →
      Gmail.SendEmail parse e res = (Gmail.validateEmail parse e, 0)) := by
  constructor <;> intro h
  · unfold AWSSES.SendEmail
    cases hv : AWSSES.validateEmail e with
    | none => rw [hv] at h; simp at h
    | some err => rfl
  · unfold Gmail.SendEmail
    cases hv : Gmail.validateEmail parse e with
    | none => rw [hv] at h; simp at h
    | some err => rfl

/-- A concrete invalid email (empty from-address) used by witnesses. -/
def invalidEmailSample : Email :=
  { FromAddress := "", ToAddresses := ["r@x.y"], CCAddresses := [],
    BCCAddresses := [], ReplyToAddresses := [], Subject := "T",
    HTMLBody := "", TextBody := "B", Attachments := [] }

/-- Witness for C5 at a concretely invalid email, with a provider client
that would succeed: both adapters return the validation failure with
zero client invocations. -/
theorem validation_failure_skips_rpc_witness :
    ((AWSSES.validateEmail invalidEmailSample).isSome = true ∧
     (Gmail.validateEmail (fun _ => none) invalidEmailSample).isSome = true) ∧
    AWSSES.SendEmail invalidEmailSample none =
      (AWSSES.validateEmail invalidEmailSample, 0) ∧
    Gmail.SendEmail (fun _ => none) invalidEmailSample none =
      (Gmail.validateEmail (fun _ => none) invalidEmailSample, 0) :=
  ⟨⟨by decide, by decide⟩,
   (validation_failure_skips_rpc invalidEmailSample (fun _ => none) none).1
     (by decide),
   (validation_failure_skips_rpc invalidEmailSample (fun _ => none) none).2
     (by decide)⟩

/-- C1: for every email and every outcome of the injected provider
client, each adapter's `SendEmail` returns either no error or exactly one
`EmailError` whose reason is one of the seven taxonomy values; a
provider-native `GoErr` is never returned unwrapped. -/
theorem sendEmail_taxonomy (e : Email) (parse : Gmail.ParseOracle)
    (res : Option GoErr) :
    ((AWSSES.SendEmail e res).1 = none ∨
      ∃ err, (AWSSES.SendEmail e res).1 = some err ∧
        err.Reason ∈ taxonomyReasons) ∧
    ((Gmail.SendEmail parse e res).1 = none ∨
      ∃ err, (Gmail.SendEmail parse e res).1 = some err ∧
        err.Reason ∈ taxonomyReasons) := by
  constructor
  · unfold AWSSES.SendEmail
    cases hv : AWSSES.validateEmail e with
    | some err => exact Or.inr ⟨err, rfl, sesValidate_reason e err hv⟩
    | none =>
      cases res with
      | none => exact Or.inl rfl
      | some gerr => exact Or.inr ⟨_, rfl, categorize_reason_mem gerr⟩
  · unfold Gmail.SendEmail
    cases hv : Gmail.validateEmail parse e with
    | some err => exact Or.inr ⟨err, rfl, gmailValidate_reason parse e err hv⟩
    | none =>
      rw [createMessage_snd_eq_none e]
      cases res with
      | none => exact Or.inl rfl
      | some gerr => exact Or.inr ⟨_, rfl, mapGmail_reason_mem gerr⟩

/-- Claim-side validator cascade for the SES adapter: the six checks in
the claim's order, first failure wins, recipients checked as the first
failing address of to ++ cc ++ bcc. -/
def specValidateSES (e : Email) : Option EmailError :=
  if e.FromAddress = "" then
    some (newError REASON_VALIDATION_ERROR "from address is required" none)
  else if ¬ AWSSES.isValidEmailAddress e.FromAddress then
    some (newError REASON_INVALID_EMAIL "invalid from address format" none)
  else if e.ToAddresses ++ e.CCAddresses ++ e.BCCAddresses = [] then
    some (newError REASON_VALIDATION_ERROR "at least one recipient is required" none)
  else
    match (e.ToAddresses ++ e.CCAddresses ++ e.BCCAddresses).find?
        (fun a => !AWSSES.isValidEmailAddress a) with
    | some bad =>
      some (newError REASON_INVALID_EMAIL
        ("invalid recipient address: " ++ bad) none)
    | none =>
      if e.Subject = "" then
        some (newError REASON_VALIDATION_ERROR "subject is required" none)
      else if e.HTMLBody = "" ∧ e.TextBody = "" then
        some (newError REASON_VALIDATION_ERROR
          "email body is required (HTML or text)" none)
      else none

/-- Claim-side validator cascade for the Gmail adapter, with the stdlib
address parser supplied as an oracle. -/
def specValidateGmail (parse : Gmail.ParseOracle) (e : Email) :
    Option EmailError :=
  if e.FromAddress = "" then
    some (newError REASON_VALIDATION_ERROR "From address is required" none)
  else
   match parse e.FromAddress with
   | some perr =>
    some (newError REASON_INVALID_EMAIL "Invalid from address format"
      (some perr))
   | none =>
    if e.ToAddresses ++ e.CCAddresses ++ e.BCCAddresses = [] then
      some (newError REASON_VALIDATION_ERROR "At least one recipient is required" none)
    else
      match (e.ToAddresses ++ e.CCAddresses ++ e.BCCAddresses).find?
          (fun a => (parse a).isSome) with
      | some bad =>
        some (newError REASON_INVALID_EMAIL
          ("Invalid recipient address format: " ++ bad) (parse bad))
      | none =>
        if e.Subject = "" then
          some (newError REASON_VALIDATION_ERROR "Subject is required" none)
        else if e.HTMLBody = "" ∧ e.TextBody = "" then
          some (newError REASON_VALIDATION_ERROR "Email body is required" none)
        else none

lemma sesCheckRecipients_eq_find : ∀ l : List String,
    AWSSES.checkRecipients l =
      (l.find? (fun a => !AWSSES.isValidEmailAddress a)).map
        (fun bad => NewInvalidEmailError
          ("invalid recipient address: " ++ bad) none)
  | [] => rfl
  | a :: rest => by
    cases hok : AWSSES.isValidEmailAddress a with
    | false =>
      rw [List.find?_cons_of_pos _ (by simp [hok])]
      simp [AWSSES.checkRecipients, hok]
    | true =>
      rw [List.find?_cons_of_neg _ (by simp [hok])]
      simp [AWSSES.checkRecipients, hok, sesCheckRecipients_eq_find rest]

lemma gmailCheckRecipients_eq_find (parse : Gmail.ParseOracle) :
    ∀ l : List String,
    Gmail.checkRecipients parse l =
      (l.find? (fun a => (parse a).isSome)).map
        (fun bad => NewInvalidEmailError
          ("Invalid recipient address format: " ++ bad) (parse bad))
  | [] => rfl
  | a :: rest => by
    cases hp : parse a with
    | some perr =>
      rw [List.find?_cons_of_pos _ (by simp [hp])]
      simp [Gmail.checkRecipients, hp]
    | none =>
      rw [List.find?_cons_of_neg _ (by simp [hp])]
      simp [Gmail.checkRecipients, hp, gmailCheckRecipients_eq_find parse rest]

lemma ses_recipients_cond (e : Email) :
    (e.ToAddresses.length + e.CCAddresses.length + e.BCCAddresses.length = 0) ↔
      (e.ToAddresses ++ e.CCAddresses ++ e.BCCAddresses = []) := by
  rw [List.append_eq_nil, List.append_eq_nil, ← List.length_eq_zero,
    ← List.length_eq_zero, ← List.length_eq_zero]
  omega

lemma gmail_recipients_cond (e : Email) :
    (e.ToAddresses.length = 0 ∧ e.CCAddresses.length = 0 ∧
        e.BCCAddresses.length = 0) ↔
      (e.ToAddresses ++ e.CCAddresses ++ e.BCCAddresses = []) := by
  rw [List.append_eq_nil, List.append_eq_nil, ← List.length_eq_zero,
    ← List.length_eq_zero, ← List.length_eq_zero]
  tauto

/-- C3: each adapter's validator applies exactly the six claimed checks
in order — from non-empty, from passes the adapter's syntax check, at
least one recipient across to/cc/bcc, every recipient passes the syntax
check (first offender named in the message), subject non-empty, some
body non-empty — returning the first failing check's error with no
accumulation, and reporting valid otherwise. -/
theorem validators_apply_checks_in_order :
    (∀ e : Email, AWSSES.validateEmail e = specValidateSES e) ∧
    (∀ (parse : Gmail.ParseOracle) (e : Email),
      Gmail.validateEmail parse e = specValidateGmail parse e) := by
  constructor
  · intro e
    unfold AWSSES.validateEmail specValidateSES
    rw [sesCheckRecipients_eq_find]
    by_cases h1 : e.FromAddress = ""
    · rw [if_pos h1, if_pos h1]; rfl
    · rw [if_neg h1, if_neg h1]
      by_cases h2 : AWSSES.isValidEmailAddress e.FromAddress = true
      · have h2a : ¬ ((!AWSSES.isValidEmailAddress e.FromAddress) = true) := by
          simp [h2]
        rw [if_neg h2a, if_neg (not_not_intro h2)]
        by_cases h3 : e.ToAddresses.length + e.CCAddresses.length +
            e.BCCAddresses.length = 0
        · rw [if_pos h3, if_pos ((ses_recipients_cond e).mp h3)]; rfl
        · rw [if_neg h3, if_neg (fun hh => h3 ((ses_recipients_cond e).mpr hh))]
          cases hf : (e.ToAddresses ++ e.CCAddresses ++ e.BCCAddresses).find?
              (fun a => !AWSSES.isValidEmailAddress a) with
          | some bad => rfl
          | none => rfl
      · have h2f : AWSSES.isValidEmailAddress e.FromAddress = false := by
          revert h2; cases AWSSES.isValidEmailAddress e.FromAddress <;> simp
        have h2a : (!AWSSES.isValidEmailAddress e.FromAddress) = true := by
          rw [h2f]; rfl
        rw [if_pos h2a, if_pos h2]; rfl
  · intro parse e
    unfold Gmail.validateEmail specValidateGmail
    rw [gmailCheckRecipients_eq_find]
    by_cases h1 : e.FromAddress = ""
    · rw [if_pos h1, if_pos h1]; rfl
    · rw [if_neg h1, if_neg h1]
      cases hp : parse e.FromAddress with
      | some perr => rfl
      | none =>
        by_cases h3 : e.ToAddresses.length = 0 ∧ e.CCAddresses.length = 0 ∧
            e.BCCAddresses.length = 0
        · rw [if_pos h3, if_pos ((gmail_recipients_cond e).mp h3)]; rfl
        · rw [if_neg h3, if_neg (fun hh => h3 ((gmail_recipients_cond e).mpr hh))]
          cases hf : (e.ToAddresses ++ e.CCAddresses ++ e.BCCAddresses).find?
              (fun a => (parse a).isSome) with
          | some bad => rfl
          | none => rfl

/-- Are all line breaks in the character stream CRLF, i.e. is every LF
immediately preceded by a CR? -/
def crlfOnly : List Char → Bool
  | [] => true
  | '\r' :: '\n' :: rest => crlfOnly rest
  | '\n' :: _ => false
  | _ :: rest => crlfOnly rest

lemma createMessage_raw (e : Email) :
    (Gmail.createMessage e).1.Raw =
      b64EncodeStr b64UrlAlphabet (utf8Encode (Gmail.rawMessage e)) := by
  unfold Gmail.createMessage Gmail.rawMessage
  by_cases h : e.Attachments.length > 0 <;>
    simp [h, Gmail.createMessageWithAttachments]

/-- C6 counterexample: `sampleEmail` is valid (both bodies present, no
attachments) yet its raw message contains LF line breaks not preceded by
CR — the lines inside the multipart/alternative body are LF-terminated —
so not every line of the whole message ends with CRLF. -/
theorem raw_message_bare_lf_cex :
    Gmail.validateEmail (fun _ => none) sampleEmail = none ∧
    sampleEmail.HTMLBody ≠ "" ∧ sampleEmail.TextBody ≠ "" ∧
    crlfOnly (Gmail.rawMessage sampleEmail).data = false := by
  refine ⟨by decide, by decide, by decide, by decide⟩

/-- C6 (amended): the final raw message (before the base64url transport
encoding, which is what `createMessage` emits) is the header block joined
with CRLF, then a blank line, then the body; the header block and the
top-level joins use CRLF, but the line breaks inside the multipart
part bodies built by the adapter are bare LF, not CRLF. -/
theorem raw_message_structure (e : Email) :
    ((Gmail.createMessage e).1.Raw =
      b64EncodeStr b64UrlAlphabet (utf8Encode (Gmail.rawMessage e))) ∧
    (e.Attachments = [] →
      Gmail.rawMessage e =
        String.intercalate "\r\n" (Gmail.baseHeaders e ++ Gmail.ctHeaders e) ++
          "\r\n\r\n" ++ Gmail.bodyOf e) ∧
    (e.HTMLBody ≠ "" → e.TextBody ≠ "" →
      Gmail.bodyOf e =
        "\n--" ++ Gmail.altBoundary
          ++ "\nContent-Type: text/plain; charset=utf-8\nContent-Transfer-Encoding: 8bit\n\n"
          ++ e.TextBody
          ++ "\n\n--" ++ Gmail.altBoundary
          ++ "\nContent-Type: text/html; charset=utf-8\nContent-Transfer-Encoding: 8bit\n\n"
          ++ e.HTMLBody ++ "\n\n--" ++ Gmail.altBoundary ++ "--") := by
  refine ⟨createMessage_raw e, fun ha => ?_, fun hh ht => ?_⟩
  · unfold Gmail.rawMessage
    rw [if_neg (by simp [ha])]
    rfl
  · unfold Gmail.bodyOf
    rw [if_pos ⟨hh, ht⟩]

/-- Witness for the amended C6 at `sampleEmail`. -/
theorem raw_message_structure_witness :
    (sampleEmail.Attachments = [] ∧ sampleEmail.HTMLBody ≠ "" ∧
      sampleEmail.TextBody ≠ "") ∧
    Gmail.rawMessage sampleEmail =
      String.intercalate "\r\n"
        (Gmail.baseHeaders sampleEmail ++ Gmail.ctHeaders sampleEmail) ++
        "\r\n\r\n" ++ Gmail.bodyOf sampleEmail ∧
    Gmail.bodyOf sampleEmail =
      "\n--" ++ Gmail.altBoundary
        ++ "\nContent-Type: text/plain; charset=utf-8\nContent-Transfer-Encoding: 8bit\n\n"
        ++ sampleEmail.TextBody
        ++ "\n\n--" ++ Gmail.altBoundary
        ++ "\nContent-Type: text/html; charset=utf-8\nContent-Transfer-Encoding: 8bit\n\n"
        ++ sampleEmail.HTMLBody ++ "\n\n--" ++ Gmail.altBoundary ++ "--" :=
  ⟨⟨by decide, by decide, by decide⟩,
   (raw_message_structure sampleEmail).2.1 (by decide),
   (raw_message_structure sampleEmail).2.2 (by decide) (by decide)⟩

/-- The header list of the raw message: the attachment path overwrites
the Content-Type header with the multipart/mixed one. -/
def Gmail.finalHeaders (e : Email) : List String :=
  if e.Attachments.length > 0 then Gmail.mixedHeaders (Gmail.headersAndBody e).1
  else (Gmail.headersAndBody e).1

lemma baseHeaders_no_ct (e : Email) :
    (Gmail.baseHeaders e).all (fun h => !(hasPfx h "Content-Type:")) = true := by
  unfold Gmail.baseHeaders
  split_ifs <;> rfl

lemma replaceFirst_append_no_ct (ct : String) (l1 l2 : List String)
    (h : l1.all (fun x => !(hasPfx x "Content-Type:")) = true) :
    Gmail.replaceFirstContentType ct (l1 ++ l2) =
      l1 ++ Gmail.replaceFirstContentType ct l2 := by
  induction l1 with
  | nil => rfl
  | cons a as ih =>
    simp only [List.all_cons, Bool.and_eq_true] at h
    have ha : hasPfx a "Content-Type:" = false := by
      rcases h with ⟨h1, -⟩
      revert h1; cases hasPfx a "Content-Type:" <;> simp
    simp [Gmail.replaceFirstContentType, ha, ih h.2]

lemma replaceFirst_ctHeaders (e : Email) :
    Gmail.replaceFirstContentType Gmail.mixedCTHeader (Gmail.ctHeaders e) =
      (if e.HTMLBody ≠ "" ∧ e.TextBody ≠ "" then [Gmail.mixedCTHeader]
       else [Gmail.mixedCTHeader, "Content-Transfer-Encoding: 8bit"]) := by
  unfold Gmail.ctHeaders
  split_ifs <;> rfl

lemma contains_ct_append (l1 t : List String) :
    Gmail.containsContentType (l1 ++ Gmail.mixedCTHeader :: t) = true := by
  simp [Gmail.containsContentType, List.any_append, List.any_cons,
    show hasPfx Gmail.mixedCTHeader "Content-Type:" = true from rfl]

lemma mixedHeaders_eq (e : Email) :
    Gmail.mixedHeaders (Gmail.headersAndBody e).1 =
      Gmail.baseHeaders e ++
        Gmail.replaceFirstContentType Gmail.mixedCTHeader (Gmail.ctHeaders e) := by
  have h1 : Gmail.replaceFirstContentType Gmail.mixedCTHeader
      ((Gmail.headersAndBody e).1) =
      Gmail.baseHeaders e ++
        Gmail.replaceFirstContentType Gmail.mixedCTHeader (Gmail.ctHeaders e) :=
    replaceFirst_append_no_ct _ _ _ (baseHeaders_no_ct e)
  unfold Gmail.mixedHeaders
  rw [h1, replaceFirst_ctHeaders e]
  by_cases hbs : e.HTMLBody ≠ "" ∧ e.TextBody ≠ ""
  · rw [if_pos hbs, if_neg (by simp [contains_ct_append])]
  · rw [if_neg hbs, if_neg (by simp [contains_ct_append])]

lemma filter_ct_finalHeaders (e : Email) (ha : e.Attachments ≠ []) :
    (Gmail.finalHeaders e).filter (fun h => hasPfx h "Content-Type:") =
      [Gmail.mixedCTHeader] := by
  have hfb : (Gmail.baseHeaders e).filter
      (fun h => hasPfx h "Content-Type:") = [] := by
    rw [List.filter_eq_nil_iff]
    intro a hax
    have hx := (List.all_eq_true.mp (baseHeaders_no_ct e)) a hax
    simp_all
  unfold Gmail.finalHeaders
  rw [if_pos (by simpa using List.length_pos.mpr ha), mixedHeaders_eq,
    replaceFirst_ctHeaders, List.filter_append, hfb]
  by_cases hbs : e.HTMLBody ≠ "" ∧ e.TextBody ≠ ""
  · rw [if_pos hbs]; rfl
  · rw [if_neg hbs]; rfl

lemma rawMessage_attachments (e : Email) (ha : e.Attachments ≠ []) :
    Gmail.rawMessage e =
      String.intercalate "\r\n" (Gmail.finalHeaders e) ++ "\r\n\r\n" ++
        String.intercalate "\r\n"
          (Gmail.mixedBodyPart (Gmail.bodyOf e) ::
            (e.Attachments.map Gmail.attachmentPart ++
             ["--" ++ Gmail.mixedBoundary ++ "--"])) := by
  have hl : e.Attachments.length > 0 := by simpa using List.length_pos.mpr ha
  unfold Gmail.rawMessage Gmail.finalHeaders
  rw [if_pos hl, if_pos hl]
  rfl

/-- The multipart/mixed envelope properties C4 claims for an email with
attachments: the transport decode recovers the raw message; the mixed
boundary is a fixed token distinct from the alternative-body boundary;
the outer Content-Type header is replaced with the multipart/mixed one
(one Content-Type header remains, the mixed one); the body section is
the previously-selected body wrapped as the first part followed by one
part per attachment in input order and the closing delimiter, joined
with CRLF; the part count ahead of the closing delimiter is 1 + the
number of attachments; each attachment part carries the claimed
Content-Type/name, Content-Disposition/filename and base64 transfer
encoding headers, and its base64 body decodes byte-for-byte to the
original content. -/
def mixedEnvelopeProp (e : Email) : Prop :=
  b64Decode b64UrlAlphabet ((Gmail.createMessage e).1.Raw).data =
      some (utf8Encode (Gmail.rawMessage e)) ∧
  Gmail.mixedBoundary ≠ Gmail.altBoundary ∧
  (Gmail.finalHeaders e).filter (fun h => hasPfx h "Content-Type:") =
      [Gmail.mixedCTHeader] ∧
  Gmail.mixedCTHeader =
      "Content-Type: multipart/mixed; boundary=" ++ Gmail.mixedBoundary ∧
  Gmail.rawMessage e =
    String.intercalate "\r\n" (Gmail.finalHeaders e) ++ "\r\n\r\n" ++
      String.intercalate "\r\n"
        (Gmail.mixedBodyPart (Gmail.bodyOf e) ::
          (e.Attachments.map Gmail.attachmentPart ++
           ["--" ++ Gmail.mixedBoundary ++ "--"])) ∧
  Gmail.mixedBodyPart (Gmail.bodyOf e) =
    "--" ++ Gmail.mixedBoundary ++
      "\nContent-Type: text/plain; charset=utf-8\nContent-Transfer-Encoding: 8bit\n\n"
      ++ Gmail.bodyOf e ∧
  (Gmail.mixedBodyPart (Gmail.bodyOf e) ::
      e.Attachments.map Gmail.attachmentPart).length =
    1 + e.Attachments.length ∧
  ∀ a ∈ e.Attachments,
    Gmail.attachmentPart a =
      "--" ++ Gmail.mixedBoundary ++ "\nContent-Type: " ++ a.ContentType ++
        "; name=\"" ++ a.FileName ++
        "\"\nContent-Disposition: attachment; filename=\"" ++ a.FileName ++
        "\"\nContent-Transfer-Encoding: base64\n\n" ++
        b64EncodeStr b64StdAlphabet a.Content ∧
    b64Decode b64StdAlphabet (b64EncodeStr b64StdAlphabet a.Content).data =
      some a.Content

/-- C4: for every email with at least one attachment (whose contents are
byte sequences), the Gmail builder produces a multipart/mixed envelope
with the properties of `mixedEnvelopeProp`. -/
theorem createMessageWithAttachments_envelope (e : Email)
    (ha : e.Attachments ≠ [])
    (hb : ∀ a ∈ e.Attachments, ∀ b ∈ a.Content, b < 256) :
    mixedEnvelopeProp e := by
  refine ⟨?_, by decide, filter_ct_finalHeaders e ha, rfl,
    rawMessage_attachments e ha, rfl, by simp [Nat.add_comm], ?_⟩
  · rw [createMessage_raw e]
    exact b64url_roundtrip_string (Gmail.rawMessage e)
  · intro a hax
    refine ⟨rfl, ?_⟩
    exact b64_decode_encode _ b64Val_b64Char_std b64Char_ne_pad_std _ (hb a hax)

/-- A concrete email with one attachment, used by the C4 witness. -/
def sampleEmailAtt : Email :=
  { FromAddress := "a@b.c", ToAddresses := ["d@e.f"], CCAddresses := [],
    BCCAddresses := [], ReplyToAddresses := [], Subject := "Hi",
    HTMLBody := "", TextBody := "T",
    Attachments := [{ FileName := "doc.pdf", Content := [37, 80, 68, 70],
                      Description := "d", ContentType := "application/pdf" }] }

/-- Witness for C4 at a concrete email with one attachment. -/
theorem createMessageWithAttachments_envelope_witness :
    (sampleEmailAtt.Attachments ≠ [] ∧
      ∀ a ∈ sampleEmailAtt.Attachments, ∀ b ∈ a.Content, b < 256) ∧
    mixedEnvelopeProp sampleEmailAtt :=
  ⟨⟨by decide, by decide⟩,
   createMessageWithAttachments_envelope sampleEmailAtt (by decide) (by decide)⟩

end EmailSpec
